import Mathlib

/-!
Shallow embedding of the StreamAlert Duo app integration
(`app_integrations/apps/duo.py`) and of the community rule
`rules/community/duo_authentication/duo_anonymous_ip_failure.py`.

The Python code is single-threaded and synchronous.  Instance state that
survives across poll invocations (`_last_timestamp`, `_more_to_poll`) is
modelled as an explicit `PollState` record threaded through the functions.
External effects are modelled as explicit inputs:
  * the wall clock read by `datetime.utcnow()` becomes a `UTCTime` argument;
  * the HTTP exchange performed by `requests.get` becomes an `HttpResponse`
    argument describing the transport outcome and the decoded body;
  * the external `hmac`/`hashlib` primitive becomes a function argument
    `hmac_sha1_hex : String → String → String` (key, message ↦ hex digest).
A Python function can return a value, return the sentinel `False`, or raise
an uncaught exception; the three outcomes are the three constructors of
`PollResult`.
-/

/-- A Duo log record as documented in `_get_duo_logs`: the collector only
interprets the `timestamp` field; the remaining fields are opaque. -/
structure LogRecord where
  timestamp : Nat
  fields : List (String × String) := []
  deriving DecidableEq, Repr

/-- The cross-poll mutable state of a `DuoApp` instance:
`self._last_timestamp` and `self._more_to_poll`. -/
structure PollState where
  last_timestamp : Nat
  more_to_poll : Bool
  deriving DecidableEq, Repr

/-- Constant `_MAX_RESPONSE_LOGS`: Duo's api returns a max of 1000 logs per request. -/
def MAX_RESPONSE_LOGS : Nat := 1000

/-- Constant `_DUO_AUTH_LOGS_ENDPOINT` of `DuoAuthApp`. -/
def DUO_AUTH_LOGS_ENDPOINT : String := "/admin/v1/logs/authentication"

/-- Constant `_DUO_ADMIN_LOGS_ENDPOINT` of `DuoAdminApp`. -/
def DUO_ADMIN_LOGS_ENDPOINT : String := "/admin/v1/logs/administrator"

/-- Model of `_sleep_seconds`: `abs((self._poll_count % 2) - 1) * 60`. -/
def sleep_seconds (poll_count : Nat) : Nat :=
  (((poll_count : Int) % 2 - 1).natAbs) * 60

/-- The secret key handed to `hmac.new`; `badType` models a value of the
wrong type, on which `hmac.new` raises `TypeError`. -/
inductive SecretKey where
  | valid (key : String)
  | badType
  deriving DecidableEq, Repr

/-- The `auth` section of `self._config`: `api_hostname`, `integration_key`,
`secret_key`. -/
structure DuoAuthConfig where
  api_hostname : String
  integration_key : String
  secret_key : SecretKey
  deriving Repr

/-- The header set returned by `_generate_auth` on success. -/
structure AuthHeaders where
  date : String
  authorization : String
  host : String
  deriving DecidableEq, Repr

/-- Broken-down UTC time as observed by `datetime.utcnow()`. -/
structure UTCTime where
  weekday : Fin 7
  day : Nat
  month : Fin 12
  year : Nat
  hour : Nat
  minute : Nat
  second : Nat
  deriving DecidableEq, Repr

def weekdayNames : List String :=
  ["Mon", "Tue", "Wed", "Thu", "Fri", "Sat", "Sun"]

def monthNames : List String :=
  ["Jan", "Feb", "Mar", "Apr", "May", "Jun",
   "Jul", "Aug", "Sep", "Oct", "Nov", "Dec"]

/-- Zero-padding to two digits, as `%d`, `%H`, `%M`, `%S` do. -/
def pad2 (n : Nat) : String :=
  if n < 10 then "0" ++ Nat.repr n else Nat.repr n

/-- Formatting `datetime.utcnow().strftime` with format `%a, %d %b %Y %H:%M:%S -0000`. -/
def strftime_rfc1123 (t : UTCTime) : String :=
  (weekdayNames.getD t.weekday "Mon") ++ ", " ++ pad2 t.day ++ " " ++
    (monthNames.getD t.month "Jan") ++ " " ++ Nat.repr t.year ++ " " ++
    pad2 t.hour ++ ":" ++ pad2 t.minute ++ ":" ++ pad2 t.second ++ " -0000"

def hexDigit (n : Nat) : Char :=
  "0123456789ABCDEF".toList.getD n '0'

/-- Model of `urllib.quote_plus` on one character: alphanumerics and `_.-` pass
through, space becomes `+`, everything else is percent-encoded. -/
def quote_plus_char (c : Char) : String :=
  if c.isAlphanum || c = '_' || c = '.' || c = '-' then String.singleton c
  else if c = ' ' then "+"
  else "%" ++ String.singleton (hexDigit (c.toNat / 16 % 16)) ++
    String.singleton (hexDigit (c.toNat % 16))

def quote_plus (s : String) : String :=
  String.join (s.toList.map quote_plus_char)

/-- Model of `urllib.urlencode`: `k=v` pairs joined by `&`, keys and values quoted. -/
def urlencode (params : List (String × String)) : String :=
  String.intercalate "&" (params.map (fun kv => quote_plus kv.1 ++ "=" ++ quote_plus kv.2))

def b64alphabet : List Char :=
  "ABCDEFGHIJKLMNOPQRSTUVWXYZabcdefghijklmnopqrstuvwxyz0123456789+/".toList

def b64char (n : Nat) : Char := b64alphabet.getD n 'A'

/-- Standard base64 of a byte list, with `=` padding. -/
def b64encodeBytes : List Nat → String
  | [] => ""
  | [a] =>
      let n := a * 65536
      String.mk [b64char (n / 262144 % 64), b64char (n / 4096 % 64), '=', '=']
  | [a, b] =>
      let n := a * 65536 + b * 256
      String.mk [b64char (n / 262144 % 64), b64char (n / 4096 % 64),
                 b64char (n / 64 % 64), '=']
  | a :: b :: c :: rest =>
      let n := a * 65536 + b * 256 + c
      String.mk [b64char (n / 262144 % 64), b64char (n / 4096 % 64),
                 b64char (n / 64 % 64), b64char (n % 64)] ++ b64encodeBytes rest

/-- Model of `base64.b64encode` of a byte string (the characters' code points). -/
def b64encode (s : String) : String :=
  b64encodeBytes (s.toList.map Char.toNat)

/-- The canonical string signed by `_generate_auth`:
`'\n'.join([formatted_date, 'GET', hostname, self._endpoint(), urllib.urlencode(params)])`. -/
def auth_string (now : UTCTime) (hostname endpoint : String)
    (params : List (String × String)) : String :=
  String.intercalate "\n"
    [strftime_rfc1123 now, "GET", hostname, endpoint, urlencode params]

/-- Model of `_generate_auth`: signs the canonical string with HMAC-SHA1 and builds
the `Date` / `Authorization` / `Host` header set.  A `TypeError` from
`hmac.new` (wrong secret-key type) is caught and `False` — here `none` —
is returned. -/
def generate_auth (hmac_sha1_hex : String → String → String)
    (config : DuoAuthConfig) (hostname endpoint : String)
    (params : List (String × String)) (now : UTCTime) : Option AuthHeaders :=
  let formatted_date := strftime_rfc1123 now
  let s := auth_string now hostname endpoint params
  match config.secret_key with
  | .badType => none
  | .valid key =>
      let signature := hmac_sha1_hex key s
      let basic_auth := String.intercalate ":" [config.integration_key, signature]
      some { date := formatted_date
             authorization := "Basic " ++ b64encode basic_auth
             host := hostname }

/-- Outcome of evaluating a Python call: a normal return value, the sentinel
`False` return used by `_get_duo_logs` for anticipated failures, or an
uncaught exception propagating to the caller. -/
inductive PollResult where
  | success (logs : List LogRecord)
  | returnedFalse
  | exn
  deriving DecidableEq, Repr

/-- Transport outcome of `requests.get`: whether `_check_http_response`
accepts the response, and the decoded body.  `body = some logs` means
`response.json()['response']` evaluates to the list `logs`; `body = none`
means that expression raises (malformed JSON or missing `response` field). -/
structure HttpResponse where
  httpOk : Bool
  body : Option (List LogRecord)
  deriving DecidableEq, Repr

/-- The external inputs of one `_gather_logs` invocation. -/
structure PollEnv where
  hmac_sha1_hex : String → String → String
  config : DuoAuthConfig
  endpoint : String
  now : UTCTime
  resp : HttpResponse

/-- The GET request actually issued by `requests.get`. -/
structure IssuedRequest where
  url : String
  headers : AuthHeaders
  params : List (String × String)
  deriving DecidableEq, Repr

/-- Result of one `_gather_logs` invocation: the returned value (or failure
mode), the instance state afterwards, the `params` dict that was built, and
the request that was issued (none when signing failed before the GET). -/
structure PollOutcome where
  result : PollResult
  state : PollState
  builtParams : List (String × String)
  issuedRequest : Option IssuedRequest

/-- The cursor-advance step of `_get_duo_logs` (its last three statements):
`self._last_timestamp = logs[-1]['timestamp']` followed by
`self._more_to_poll = len(logs) >= self._MAX_RESPONSE_LOGS`.
On an empty list, `logs[-1]` raises `IndexError` before either assignment
executes, so there is no successor state: the result is `none`. -/
def advanceCursor (st : PollState) (logs : List LogRecord) : Option PollState :=
  match logs.getLast? with
  | none => none
  | some lastRec =>
      some { st with
             last_timestamp := lastRec.timestamp
             more_to_poll := decide (MAX_RESPONSE_LOGS ≤ logs.length) }

/-- The URL built by `_gather_logs`: scheme `https`, then hostname, then endpoint. -/
def full_url (hostname endpoint : String) : String :=
  "https://" ++ hostname ++ endpoint

/-- Model of `_get_duo_logs` (reached through `_gather_logs`, which supplies the
hostname from the config and the subclass endpoint): builds the `mintime`
parameter from the cursor, signs, fetches, validates, decodes, advances the
cursor, and returns the batch.  Failure modes match the Python control flow:
a falsy header set or a failed `_check_http_response` return `False`; a body
whose `response` field cannot be extracted raises; `logs[-1]` on an empty
list raises. -/
def get_duo_logs (env : PollEnv) (st : PollState) : PollOutcome :=
  let params := [("mintime", Nat.repr (st.last_timestamp + 1))]
  let hostname := env.config.api_hostname
  match generate_auth env.hmac_sha1_hex env.config hostname env.endpoint params env.now with
  | none => ⟨.returnedFalse, st, params, none⟩
  | some headers =>
      let req : IssuedRequest := ⟨full_url hostname env.endpoint, headers, params⟩
      if env.resp.httpOk = false then ⟨.returnedFalse, st, params, some req⟩
      else
        match env.resp.body with
        | none => ⟨.exn, st, params, some req⟩
        | some logs =>
            match advanceCursor st logs with
            | none => ⟨.exn, st, params, some req⟩
            | some st' => ⟨.success logs, st', params, some req⟩

/-- A poll invocation that did not return a batch of logs. -/
def PollResult.isFailure : PollResult → Bool
  | .success _ => false
  | .returnedFalse => true
  | .exn => true

/-- A sequence of poll invocations on one collector instance, returning the
final instance state. -/
def pollSeq (envs : List PollEnv) (st : PollState) : PollState :=
  envs.foldl (fun s e => (get_duo_logs e s).state) st

/-- Provider conformance for one response, relative to the watermark `w` the
request was built from: every record decoded from the body has a timestamp
at least the requested `mintime = w + 1`. -/
def respAbove (resp : HttpResponse) (w : Nat) : Bool :=
  match resp.body with
  | none => true
  | some logs => logs.all (fun r => w + 1 ≤ r.timestamp)

/-- Provider conformance along a whole sequence of polls: each response
respects the `mintime` that the then-current state generates. -/
def conformant : List PollEnv → PollState → Bool
  | [], _ => true
  | e :: es, st => respAbove e.resp st.last_timestamp && conformant es (get_duo_logs e st).state

/-- Character-wise lowercasing (equivalent to `String.toLower`, stated over
the character list so it evaluates by kernel reduction). -/
def strToLower (s : String) : String := String.mk (s.toList.map Char.toLower)

/-- The canonical string as the specification words it: five newline-joined
fields with the hostname lowercased.  Stated for comparison with the string
the code actually signs (`auth_string`). -/
def auth_string_spec (now : UTCTime) (hostname endpoint : String)
    (params : List (String × String)) : String :=
  String.intercalate "\n"
    [strftime_rfc1123 now, "GET", strToLower hostname, endpoint, urlencode params]

/-- Lookup `rec[key]` on a Python dict modelled as an association list; `none`
models the `KeyError` raised when the key is absent. -/
def dictGet (rec : List (String × String)) (key : String) : Option String :=
  (rec.find? (fun kv => kv.1 == key)).map Prod.snd

/-- The community rule `duo_anonymous_ip_failure`:
`rec['result'] == 'FAILURE' and rec['reason'] == 'Anonymous IP'`, with
Python's short-circuit `and` and `KeyError` (modelled as `none`) when an
accessed key is missing. -/
def duo_anonymous_ip_failure (rec : List (String × String)) : Option Bool :=
  match dictGet rec "result" with
  | none => none
  | some result =>
      if result == "FAILURE" then
        match dictGet rec "reason" with
        | none => none
        | some reason => some (reason == "Anonymous IP")
      else
        some false

/-- Concrete wall-clock instant used by the witnesses:
Mon, 01 Jan 2017 00:00:00 UTC. -/
def timeW : UTCTime := ⟨0, 1, 0, 2017, 0, 0, 0⟩

/-- A well-formed credential record. -/
def cfgValid : DuoAuthConfig :=
  { api_hostname := "api-12345678.duosecurity.com"
    integration_key := "DIABCDEFGHIJKLMN1234"
    secret_key := .valid "k" }

/-- The same credentials with a malformed (wrong-type) secret key. -/
def cfgBadKey : DuoAuthConfig := { cfgValid with secret_key := .badType }

/-- A transport-accepted response carrying three records. -/
def respOk3 : HttpResponse :=
  { httpOk := true, body := some [⟨1010, []⟩, ⟨1020, []⟩, ⟨1030, []⟩] }

/-- Environment for a successful poll against the auth endpoint. -/
def envOk : PollEnv :=
  { hmac_sha1_hex := fun _ _ => "d"
    config := cfgValid
    endpoint := DUO_AUTH_LOGS_ENDPOINT
    now := timeW
    resp := respOk3 }

/-- Environment whose signing step fails on the malformed secret key. -/
def envAuthFail : PollEnv := { envOk with config := cfgBadKey }

/-- Environment whose response passes transport validation but whose body
has no well-formed `response` array. -/
def envDecodeFail : PollEnv := { envOk with resp := { httpOk := true, body := none } }

/-- The request `envOk` issues from watermark 5. -/
def reqW : IssuedRequest :=
  { url := "https://api-12345678.duosecurity.com/admin/v1/logs/authentication"
    headers :=
      { date := "Mon, 01 Jan 2017 00:00:00 -0000"
        authorization := "Basic " ++ b64encode "DIABCDEFGHIJKLMN1234:d"
        host := "api-12345678.duosecurity.com" }
    params := [("mintime", "6")] }

theorem sleep_seconds_even (n : Nat) (h : n % 2 = 0) : sleep_seconds n = 60 := by
  unfold sleep_seconds
  have h2 : (n : Int) % 2 = 0 := by omega
  rw [h2]
  rfl

theorem sleep_seconds_odd (n : Nat) (h : n % 2 = 1) : sleep_seconds n = 0 := by
  unfold sleep_seconds
  have h2 : (n : Int) % 2 = 1 := by omega
  rw [h2]
  rfl

lemma get_duo_logs_builtParams (e : PollEnv) (st : PollState) :
    (get_duo_logs e st).builtParams = [("mintime", Nat.repr (st.last_timestamp + 1))] := by
  cases hg : generate_auth e.hmac_sha1_hex e.config e.config.api_hostname e.endpoint
      [("mintime", Nat.repr (st.last_timestamp + 1))] e.now with
  | none => simp [get_duo_logs, hg]
  | some headers =>
      cases hok : e.resp.httpOk with
      | false => simp [get_duo_logs, hg, hok]
      | true =>
          cases hb : e.resp.body with
          | none => simp [get_duo_logs, hg, hok, hb]
          | some logs =>
              cases ha : advanceCursor st logs with
              | none => simp [get_duo_logs, hg, hok, hb, ha]
              | some st2 => simp [get_duo_logs, hg, hok, hb, ha]

lemma get_duo_logs_state_of_failure (e : PollEnv) (st : PollState)
    (h : (get_duo_logs e st).result.isFailure = true) :
    (get_duo_logs e st).state = st := by
  cases hg : generate_auth e.hmac_sha1_hex e.config e.config.api_hostname e.endpoint
      [("mintime", Nat.repr (st.last_timestamp + 1))] e.now with
  | none => simp [get_duo_logs, hg]
  | some headers =>
      cases hok : e.resp.httpOk with
      | false => simp [get_duo_logs, hg, hok]
      | true =>
          cases hb : e.resp.body with
          | none => simp [get_duo_logs, hg, hok, hb]
          | some logs =>
              cases ha : advanceCursor st logs with
              | none => simp [get_duo_logs, hg, hok, hb, ha]
              | some st2 =>
                  exfalso
                  revert h
                  simp [get_duo_logs, hg, hok, hb, ha, PollResult.isFailure]

lemma get_duo_logs_issuedRequest_params (e : PollEnv) (st : PollState) (req : IssuedRequest)
    (h : (get_duo_logs e st).issuedRequest = some req) :
    req.params = [("mintime", Nat.repr (st.last_timestamp + 1))] := by
  cases hg : generate_auth e.hmac_sha1_hex e.config e.config.api_hostname e.endpoint
      [("mintime", Nat.repr (st.last_timestamp + 1))] e.now with
  | none => simp [get_duo_logs, hg] at h
  | some headers =>
      cases hok : e.resp.httpOk with
      | false =>
          simp [get_duo_logs, hg, hok] at h
          simp [← h]
      | true =>
          cases hb : e.resp.body with
          | none =>
              simp [get_duo_logs, hg, hok, hb] at h
              simp [← h]
          | some logs =>
              cases ha : advanceCursor st logs with
              | none =>
                  simp [get_duo_logs, hg, hok, hb, ha] at h
                  simp [← h]
              | some st2 =>
                  simp [get_duo_logs, hg, hok, hb, ha] at h
                  simp [← h]

lemma get_duo_logs_success (e : PollEnv) (st : PollState) (logs : List LogRecord)
    (h : (get_duo_logs e st).result = .success logs) :
    e.resp.body = some logs ∧ advanceCursor st logs = some (get_duo_logs e st).state := by
  cases hg : generate_auth e.hmac_sha1_hex e.config e.config.api_hostname e.endpoint
      [("mintime", Nat.repr (st.last_timestamp + 1))] e.now with
  | none => simp [get_duo_logs, hg] at h
  | some headers =>
      cases hok : e.resp.httpOk with
      | false => simp [get_duo_logs, hg, hok] at h
      | true =>
          cases hb : e.resp.body with
          | none => simp [get_duo_logs, hg, hok, hb] at h
          | some logs2 =>
              cases ha : advanceCursor st logs2 with
              | none => simp [get_duo_logs, hg, hok, hb, ha] at h
              | some st2 =>
                  simp [get_duo_logs, hg, hok, hb, ha] at h
                  subst h
                  refine ⟨rfl, ?_⟩
                  simp [get_duo_logs, hg, hok, hb, ha]

lemma generate_auth_valid (hm : String → String → String) (config : DuoAuthConfig)
    (key : String) (hostname endpoint : String) (params : List (String × String))
    (now : UTCTime) (hk : config.secret_key = .valid key) :
    generate_auth hm config hostname endpoint params now =
      some { date := strftime_rfc1123 now
             authorization := "Basic " ++ b64encode (String.intercalate ":"
               [config.integration_key, hm key (auth_string now hostname endpoint params)])
             host := hostname } := by
  simp [generate_auth, hk]

lemma get_duo_logs_decode_exn (e : PollEnv) (st : PollState) (key : String)
    (hk : e.config.secret_key = .valid key) (hok : e.resp.httpOk = true)
    (hb : e.resp.body = none) :
    (get_duo_logs e st).result = .exn ∧ (get_duo_logs e st).state = st := by
  have hg := generate_auth_valid e.hmac_sha1_hex e.config key e.config.api_hostname
    e.endpoint [("mintime", Nat.repr (st.last_timestamp + 1))] e.now hk
  constructor <;> simp [get_duo_logs, hg, hok, hb]

lemma advanceCursor_nil (st : PollState) : advanceCursor st [] = none := rfl

lemma advanceCursor_ne_nil (st : PollState) (B : List LogRecord) (h : B ≠ []) :
    advanceCursor st B =
      some { last_timestamp := (B.getLast h).timestamp
             more_to_poll := decide (MAX_RESPONSE_LOGS ≤ B.length) } := by
  unfold advanceCursor
  rw [List.getLast?_eq_getLast_of_ne_nil h]

lemma step_last_timestamp_mono (e : PollEnv) (st : PollState)
    (h : respAbove e.resp st.last_timestamp = true) :
    st.last_timestamp ≤ ((get_duo_logs e st).state).last_timestamp := by
  cases hr : (get_duo_logs e st).result with
  | returnedFalse =>
      rw [get_duo_logs_state_of_failure e st (by rw [hr]; rfl)]
  | exn =>
      rw [get_duo_logs_state_of_failure e st (by rw [hr]; rfl)]
  | success logs =>
      obtain ⟨hb, ha⟩ := get_duo_logs_success e st logs hr
      have hne : logs ≠ [] := by
        intro hnil
        rw [hnil, advanceCursor_nil] at ha
        exact Option.noConfusion ha
      rw [advanceCursor_ne_nil st logs hne] at ha
      have hst : (get_duo_logs e st).state =
          { last_timestamp := (logs.getLast hne).timestamp
            more_to_poll := decide (MAX_RESPONSE_LOGS ≤ logs.length) } :=
        (Option.some.injEq _ _ ▸ ha).symm
      rw [hst]
      have hmem : logs.getLast hne ∈ logs := List.getLast_mem hne
      have hall : ∀ r ∈ logs, st.last_timestamp + 1 ≤ r.timestamp := by
        revert h
        simp [respAbove, hb, List.all_eq_true]
      exact Nat.le_of_succ_le (hall _ hmem)

/-- Claim C2 counterexample: `sleep_seconds` returns 60 at poll count 0 and
0 at poll count 1, refuting the claimed values `sleep_seconds(0)=0` and
`sleep_seconds(1)=60`. -/
theorem sleep_seconds_phase_counterexample :
    sleep_seconds 0 = 60 ∧ sleep_seconds 1 = 0 ∧
      ¬(sleep_seconds 0 = 0 ∧ sleep_seconds 1 = 60) := by
  decide

/-- Claim C2 (amended): for every non-negative integer poll count,
`sleep_seconds` returns 60 when the count is even and 0 when it is odd. -/
theorem sleep_seconds_duty_cycle (n : Nat) :
    sleep_seconds n = if n % 2 = 0 then 60 else 0 := by
  rcases Nat.mod_two_eq_zero_or_one n with h | h
  · rw [sleep_seconds_even n h, h]
    rfl
  · rw [sleep_seconds_odd n h, h]
    rfl

/-- Claim C1 counterexample: advancing the cursor with the empty batch does
not leave the state with `more_to_poll = false`; `logs[-1]` raises, so no
successor state exists at all. -/
theorem advance_empty_batch_counterexample :
    advanceCursor ⟨1000, true⟩ [] = none ∧
      advanceCursor ⟨1000, true⟩ [] ≠ some ⟨1000, false⟩ := by
  decide

/-- Claim C1 (amended): for every non-empty batch, advancing the cursor sets
the watermark to the timestamp of the batch's last element; for the empty
batch the advance raises an `IndexError` before any assignment, so it
produces no successor state (the caller's state is simply unchanged) rather
than succeeding with `more_to_poll` set to false. -/
theorem advance_watermark_postcondition (st : PollState) (B : List LogRecord)
    (h : B ≠ []) :
    (advanceCursor st B).map PollState.last_timestamp = some (B.getLast h).timestamp ∧
      advanceCursor st [] = none := by
  rw [advanceCursor_ne_nil st B h]
  exact ⟨rfl, rfl⟩

/-- Claim C1 witness: a concrete one-element batch. -/
theorem advance_watermark_postcondition_witness :
    (advanceCursor ⟨0, false⟩ [⟨10, []⟩]).map PollState.last_timestamp = some 10 ∧
      advanceCursor ⟨0, false⟩ [] = none :=
  advance_watermark_postcondition ⟨0, false⟩ [⟨10, []⟩] (by decide)

set_option maxRecDepth 10000 in
/-- Claim C4 counterexample: a batch of 1001 records yields
`more_to_poll = true` although its length differs from the maximum page size
1000 (the code compares with `>=`, not `==`), and the empty batch — shorter
than 1000 — yields no advanced state at all instead of `has_more = false`. -/
theorem has_more_iff_counterexample :
    advanceCursor ⟨0, false⟩ (List.replicate 1001 ⟨7, []⟩) = some ⟨7, true⟩ ∧
      (List.replicate 1001 (⟨7, []⟩ : LogRecord)).length ≠ 1000 ∧
      advanceCursor ⟨0, false⟩ [] = none := by
  refine ⟨by decide, by decide, rfl⟩

/-- Claim C4 (amended): for every non-empty batch, after advancing the
cursor, `more_to_poll` is true iff the batch length is at least the maximum
page size 1000 (equivalently, for batches within the provider's 1000-record
limit: iff the length is exactly 1000), and false iff the length is below
1000; the empty batch cannot be advanced. -/
theorem has_more_iff_full_page (st : PollState) (B : List LogRecord) (h : B ≠ []) :
    ((advanceCursor st B).map PollState.more_to_poll = some true ↔
        MAX_RESPONSE_LOGS ≤ B.length) ∧
      ((advanceCursor st B).map PollState.more_to_poll = some false ↔
        B.length < MAX_RESPONSE_LOGS) := by
  rw [advanceCursor_ne_nil st B h]
  simp [Nat.not_le, Nat.lt_iff_add_one_le]

/-- Claim C4 witness: a concrete three-record batch is advanced and leaves
`more_to_poll = false` since 3 < 1000. -/
theorem has_more_iff_full_page_witness :
    ((advanceCursor ⟨1000, false⟩ [⟨1010, []⟩, ⟨1020, []⟩, ⟨1030, []⟩]).map
        PollState.more_to_poll = some true ↔
        MAX_RESPONSE_LOGS ≤ ([⟨1010, []⟩, ⟨1020, []⟩, ⟨1030, []⟩] : List LogRecord).length) ∧
      ((advanceCursor ⟨1000, false⟩ [⟨1010, []⟩, ⟨1020, []⟩, ⟨1030, []⟩]).map
        PollState.more_to_poll = some false ↔
        ([⟨1010, []⟩, ⟨1020, []⟩, ⟨1030, []⟩] : List LogRecord).length < MAX_RESPONSE_LOGS) :=
  has_more_iff_full_page ⟨1000, false⟩ [⟨1010, []⟩, ⟨1020, []⟩, ⟨1030, []⟩] (by decide)

/-- Claim C3: every failed poll invocation — signing failure, transport
validation failure, or decode failure — leaves the cursor state unchanged,
so re-invoking the poll with that state builds the identical `mintime`
query parameter. -/
theorem poll_failure_preserves_cursor (e e2 : PollEnv) (st : PollState)
    (h : (get_duo_logs e st).result.isFailure = true) :
    (get_duo_logs e st).state = st ∧
      (get_duo_logs e2 (get_duo_logs e st).state).builtParams =
        (get_duo_logs e st).builtParams := by
  have hs := get_duo_logs_state_of_failure e st h
  refine ⟨hs, ?_⟩
  rw [hs, get_duo_logs_builtParams, get_duo_logs_builtParams]

/-- Claim C3 witness: a poll whose signing step fails on a malformed secret
key leaves the cursor at watermark 5 and a retry builds the same params. -/
theorem poll_failure_preserves_cursor_witness :
    (get_duo_logs envAuthFail ⟨5, false⟩).state = ⟨5, false⟩ ∧
      (get_duo_logs envAuthFail (get_duo_logs envAuthFail ⟨5, false⟩).state).builtParams =
        (get_duo_logs envAuthFail ⟨5, false⟩).builtParams :=
  poll_failure_preserves_cursor envAuthFail envAuthFail ⟨5, false⟩ (by decide)

/-- Claim C5: every request a poll issues carries the query parameter
`mintime` equal to the decimal string of the current watermark plus one. -/
theorem mintime_strictly_after_watermark (e : PollEnv) (st : PollState)
    (req : IssuedRequest) (h : (get_duo_logs e st).issuedRequest = some req) :
    req.params = [("mintime", Nat.repr (st.last_timestamp + 1))] :=
  get_duo_logs_issuedRequest_params e st req h

/-- Claim C5 witness: from watermark 5 the issued request queries
`mintime=6`. -/
theorem mintime_strictly_after_watermark_witness :
    reqW.params = [("mintime", Nat.repr ((⟨5, false⟩ : PollState).last_timestamp + 1))] :=
  mintime_strictly_after_watermark envOk ⟨5, false⟩ reqW (by decide)

/-- Claim C6: whenever the provider only returns records with timestamps at
least the requested `mintime`, the watermark `_last_timestamp` is
monotonically non-decreasing across every sequence of poll invocations on
one collector instance. -/
theorem watermark_monotone (envs : List PollEnv) (st : PollState)
    (h : conformant envs st = true) :
    st.last_timestamp ≤ (pollSeq envs st).last_timestamp := by
  induction envs generalizing st with
  | nil => exact Nat.le_refl _
  | cons e es ih =>
      simp only [conformant, Bool.and_eq_true] at h
      calc st.last_timestamp
          ≤ ((get_duo_logs e st).state).last_timestamp :=
            step_last_timestamp_mono e st h.1
        _ ≤ (pollSeq es (get_duo_logs e st).state).last_timestamp :=
            ih (get_duo_logs e st).state h.2

/-- Claim C6 witness: one conformant poll from watermark 1000. -/
theorem watermark_monotone_witness :
    (⟨1000, false⟩ : PollState).last_timestamp ≤
      (pollSeq [envOk] ⟨1000, false⟩).last_timestamp :=
  watermark_monotone [envOk] ⟨1000, false⟩ (by decide)

/-- Claim C7: signing is deterministic — two invocations with identical
credentials, hostname, endpoint path, query parameters, and timestamp
produce identical `Date`, `Authorization`, and `Host` headers. -/
theorem sign_deterministic (hm : String → String → String)
    (c1 c2 : DuoAuthConfig) (h1 h2 ep1 ep2 : String)
    (p1 p2 : List (String × String)) (t1 t2 : UTCTime)
    (hc : c1 = c2) (hh : h1 = h2) (hep : ep1 = ep2) (hp : p1 = p2) (ht : t1 = t2) :
    generate_auth hm c1 h1 ep1 p1 t1 = generate_auth hm c2 h2 ep2 p2 t2 := by
  subst hc
  subst hh
  subst hep
  subst hp
  subst ht
  rfl

/-- Claim C7 witness: two identical concrete signing invocations agree. -/
theorem sign_deterministic_witness :
    generate_auth (fun _ _ => "d") cfgValid "api-12345678.duosecurity.com"
        DUO_AUTH_LOGS_ENDPOINT [("mintime", "6")] timeW =
      generate_auth (fun _ _ => "d") cfgValid "api-12345678.duosecurity.com"
        DUO_AUTH_LOGS_ENDPOINT [("mintime", "6")] timeW :=
  sign_deterministic (fun _ _ => "d") cfgValid cfgValid
    "api-12345678.duosecurity.com" "api-12345678.duosecurity.com"
    DUO_AUTH_LOGS_ENDPOINT DUO_AUTH_LOGS_ENDPOINT
    [("mintime", "6")] [("mintime", "6")] timeW timeW rfl rfl rfl rfl rfl

/-- Claim C8 counterexample: with a valid key and a transport-accepted
response whose body is malformed, the poll raises an uncaught exception
(result `exn`) instead of returning the error value used for classified
failures (`returnedFalse`). -/
theorem decode_failure_counterexample :
    (get_duo_logs envDecodeFail ⟨1000, false⟩).result = .exn ∧
      (get_duo_logs envDecodeFail ⟨1000, false⟩).result ≠ .returnedFalse := by
  decide

/-- Claim C8 (amended): for every response that passes transport-level
validation but whose body has no well-formed `response` array, the poll
propagates an unclassified exception to the caller — it does not return a
typed error value — and the cursor state is unchanged. -/
theorem decode_failure_raises (e : PollEnv) (st : PollState) (key : String)
    (hk : e.config.secret_key = .valid key) (hok : e.resp.httpOk = true)
    (hb : e.resp.body = none) :
    (get_duo_logs e st).result = .exn ∧ (get_duo_logs e st).state = st :=
  get_duo_logs_decode_exn e st key hk hok hb

/-- Claim C8 witness: the concrete malformed-body environment. -/
theorem decode_failure_raises_witness :
    (get_duo_logs envDecodeFail ⟨1000, false⟩).result = .exn ∧
      (get_duo_logs envDecodeFail ⟨1000, false⟩).state = ⟨1000, false⟩ :=
  decode_failure_raises envDecodeFail ⟨1000, false⟩ "k" rfl rfl rfl

/-- Claim C9 counterexample: for a hostname containing uppercase letters the
string the code signs differs from the five-field canonical string with the
lowercased hostname described by the specification — the code joins the
hostname verbatim. -/
theorem canonical_string_counterexample :
    auth_string timeW "API-12345678.DUOSECURITY.COM" DUO_AUTH_LOGS_ENDPOINT
        [("mintime", "1001")] ≠
      auth_string_spec timeW "API-12345678.DUOSECURITY.COM" DUO_AUTH_LOGS_ENDPOINT
        [("mintime", "1001")] := by
  decide

/-- Claim C9 (amended): the string that is HMAC'd is exactly five fields
joined by newlines — the formatted UTC timestamp, the literal uppercase
method `GET`, the hostname verbatim (which coincides with its lowercase
form whenever the hostname is already lowercase, as the validated
`api-…duosecurity.com` format guarantees), the endpoint path, and the
URL-encoded query parameters — and the returned `Date` header equals the
timestamp field of that canonical string. -/
theorem canonical_string_structure (hm : String → String → String)
    (config : DuoAuthConfig) (key : String) (hostname endpoint : String)
    (params : List (String × String)) (now : UTCTime)
    (hk : config.secret_key = .valid key) :
    auth_string now hostname endpoint params =
      String.intercalate "\n"
        [strftime_rfc1123 now, "GET", hostname, endpoint, urlencode params] ∧
      (strToLower hostname = hostname →
        auth_string now hostname endpoint params =
          auth_string_spec now hostname endpoint params) ∧
      generate_auth hm config hostname endpoint params now =
        some { date := strftime_rfc1123 now
               authorization := "Basic " ++ b64encode (String.intercalate ":"
                 [config.integration_key,
                  hm key (auth_string now hostname endpoint params)])
               host := hostname } := by
  refine ⟨rfl, ?_, generate_auth_valid hm config key hostname endpoint params now hk⟩
  intro hlow
  simp [auth_string, auth_string_spec, hlow]

/-- Claim C9 witness: a concrete lowercase hostname and valid key. -/
theorem canonical_string_structure_witness :
    auth_string timeW "api-12345678.duosecurity.com" DUO_AUTH_LOGS_ENDPOINT
        [("mintime", "6")] =
      String.intercalate "\n"
        [strftime_rfc1123 timeW, "GET", "api-12345678.duosecurity.com",
         DUO_AUTH_LOGS_ENDPOINT, urlencode [("mintime", "6")]] ∧
      (strToLower "api-12345678.duosecurity.com" = "api-12345678.duosecurity.com" →
        auth_string timeW "api-12345678.duosecurity.com" DUO_AUTH_LOGS_ENDPOINT
            [("mintime", "6")] =
          auth_string_spec timeW "api-12345678.duosecurity.com" DUO_AUTH_LOGS_ENDPOINT
            [("mintime", "6")]) ∧
      generate_auth (fun _ _ => "d") cfgValid "api-12345678.duosecurity.com"
          DUO_AUTH_LOGS_ENDPOINT [("mintime", "6")] timeW =
        some { date := strftime_rfc1123 timeW
               authorization := "Basic " ++ b64encode (String.intercalate ":"
                 [cfgValid.integration_key,
                  (fun _ _ => "d") "k" (auth_string timeW "api-12345678.duosecurity.com"
                    DUO_AUTH_LOGS_ENDPOINT [("mintime", "6")])])
               host := "api-12345678.duosecurity.com" } :=
  canonical_string_structure (fun _ _ => "d") cfgValid "k"
    "api-12345678.duosecurity.com" DUO_AUTH_LOGS_ENDPOINT [("mintime", "6")] timeW rfl

/-- Claim C10: for every record whose `result` field is `FAILURE` but which
has no `reason` key, evaluating the rule raises a missing-key error instead
of returning a boolean; for every record whose `result` is not `FAILURE`
the rule returns `False` without needing the `reason` key. -/
theorem rule_reason_key_behavior (rec : List (String × String)) :
    (dictGet rec "result" = some "FAILURE" → dictGet rec "reason" = none →
        duo_anonymous_ip_failure rec = none) ∧
      (∀ r, dictGet rec "result" = some r → r ≠ "FAILURE" →
        duo_anonymous_ip_failure rec = some false) := by
  constructor
  · intro hres hreason
    simp [duo_anonymous_ip_failure, hres, hreason]
  · intro r hres hne
    simp [duo_anonymous_ip_failure, hres, hne]

/-- Claim C10 witness: a `FAILURE` record without a `reason` key raises; a
non-`FAILURE` record returns false even with a `reason` key present. -/
theorem rule_reason_key_behavior_witness :
    duo_anonymous_ip_failure [("result", "FAILURE")] = none ∧
      duo_anonymous_ip_failure [("result", "SUCCESS"), ("reason", "Anonymous IP")] =
        some false :=
  ⟨(rule_reason_key_behavior [("result", "FAILURE")]).1 (by decide) (by decide),
   (rule_reason_key_behavior [("result", "SUCCESS"), ("reason", "Anonymous IP")]).2
     "SUCCESS" (by decide) (by decide)⟩
